import Mathlib

/-!
Verification of the URL-inspection pipeline in `inspect_urls.py`.

The script builds a URL set (static file lines plus date-generated pages),
inspects each URL against the Search Console API in batches of 5, and writes
rows to a freshly created Google Sheet, falling back one-way to a local CSV
file when sheet creation or a batch append fails.

The embedding below translates each Python function into a pure Lean
function; the remote collaborators (credentials, site listing, inspection
responses, sheet creation, append success) are inputs in an `Env` record,
and `main` returns a `RunResult` recording the remote calls made, the rows
that ended up in the sheet, and the contents of the CSV file if one was
written.
-/

namespace UrlInspection

/-- Configuration constant `SITE_URL` from the script. -/
def SITE_URL : String := "https://wordsolverx.com/"

/-- The fixed game-name list in `generate_dynamic_urls`. -/
def games : List String := ["wordle", "quordle", "colordle", "semantle", "phoodle"]

/-- Header row used both for the sheet and for the CSV file. -/
def headers : List String :=
  ["Inspection Date", "URL", "Verdict", "Coverage State",
   "Robots Txt State", "Indexing State", "Last Crawl Time",
   "Page Fetch State", "Google Canonical", "User Canonical"]

/-! ## Dates

`datetime.now() - timedelta(days=i)` and `strftime("%B-%d-%Y").lower()`
are embedded as Gregorian-calendar day subtraction plus formatting. -/

/-- A Gregorian calendar date. -/
structure Date where
  year : Nat
  month : Nat
  day : Nat

/-- Gregorian leap-year rule. -/
def isLeap (y : Nat) : Bool :=
  (y % 4 == 0 && y % 100 != 0) || y % 400 == 0

/-- Number of days in a month of a given year. -/
def daysInMonth (y m : Nat) : Nat :=
  if m = 2 then (if isLeap y then 29 else 28)
  else if m = 4 ∨ m = 6 ∨ m = 9 ∨ m = 11 then 30
  else 31

/-- The previous calendar day. -/
def prevDay (d : Date) : Date :=
  if 1 < d.day then ⟨d.year, d.month, d.day - 1⟩
  else if 1 < d.month then ⟨d.year, d.month - 1, daysInMonth d.year (d.month - 1)⟩
  else ⟨d.year - 1, 12, 31⟩

/-- `d - timedelta(days=n)`. -/
def subDays (d : Date) : Nat → Date
  | 0 => d
  | n + 1 => prevDay (subDays d n)

/-- Lower-cased English month names, as produced by `strftime("%B").lower()`. -/
def monthNames : List String :=
  ["january", "february", "march", "april", "may", "june",
   "july", "august", "september", "october", "november", "december"]

/-- Month name for a 1-based month number. -/
def monthName (m : Nat) : String := monthNames.getD (m - 1) ""

/-- Two-digit zero-padded day, as produced by `strftime("%d")`. -/
def pad2 (n : Nat) : String := if n < 10 then "0" ++ toString n else toString n

/-- `date.strftime("%B-%d-%Y").lower()`. -/
def dateStr (d : Date) : String :=
  monthName d.month ++ "-" ++ pad2 d.day ++ "-" ++ toString d.year

/-! ## URL Set Builder -/

/-- `generate_dynamic_urls`: for each of the trailing 7 days (today first) and
each game, one URL `SITE_URL ++ game ++ "-answer-for-" ++ date_str`. -/
def generate_dynamic_urls (today : Date) : List String :=
  (List.range 7).flatMap fun i =>
    let date_str := dateStr (subDays today i)
    games.map fun game => SITE_URL ++ game ++ "-answer-for-" ++ date_str

/-- Whitespace characters removed by Python's `str.strip()` (ASCII part). -/
def isPySpace (c : Char) : Bool :=
  c == ' ' || c == '\t' || c == '\n' || c == '\r' || c == '\x0b' || c == '\x0c'

/-- Python's `line.strip()`: remove leading and trailing whitespace. -/
def pyStrip (s : String) : String :=
  ⟨((s.data.dropWhile isPySpace).reverse.dropWhile isPySpace).reverse⟩

/-- `read_static_urls`: `None` models an absent `pages.txt` (contributing no
URLs and not failing); otherwise the file's lines, stripped, with
whitespace-only lines dropped. -/
def read_static_urls (file : Option (List String)) : List String :=
  match file with
  | none => []
  | some lines => (lines.map pyStrip).filter (· ≠ "")

/-- The run's URL set: `all_urls = static_urls + dynamic_urls` in `main`. -/
def build (staticFile : Option (List String)) (today : Date) : List String :=
  read_static_urls staticFile ++ generate_dynamic_urls today

/-! ## Inspection Client -/

/-- The optional `indexStatusResult` payload: each of the 8 status fields may
be absent from the remote response. -/
structure IndexStatusResult where
  verdict : Option String
  coverageState : Option String
  robotsTxtState : Option String
  indexingState : Option String
  lastCrawlTime : Option String
  pageFetchState : Option String
  googleCanonical : Option String
  userCanonical : Option String

/-- An `indexStatusResult` with every field absent (the `{}` default). -/
def emptyIndexStatus : IndexStatusResult :=
  ⟨none, none, none, none, none, none, none, none⟩

/-- The `inspectionResult` wrapper: `indexStatusResult` may be absent. -/
structure InspectionResult where
  indexStatusResult : Option IndexStatusResult

/-- Outcome of one remote `urlInspection().index().inspect` call: a response
whose `inspectionResult` may be absent, or a raised exception message. -/
inductive ApiResult where
  | ok : Option InspectionResult → ApiResult
  | error : String → ApiResult

/-- The eight status fields of an `indexStatusResult`, in row order. -/
def fieldsOf (r : IndexStatusResult) : List (Option String) :=
  [r.verdict, r.coverageState, r.robotsTxtState, r.indexingState,
   r.lastCrawlTime, r.pageFetchState, r.googleCanonical, r.userCanonical]

/-- `inspect_url`: builds the 10-field row; `now` is the formatted
`datetime.now()` timestamp taken at the call. -/
def inspect_url (now url : String) (resp : ApiResult) : List String :=
  match resp with
  | ApiResult.ok ir =>
    let result := ir.getD ⟨none⟩
    let r := result.indexStatusResult.getD emptyIndexStatus
    [now, url,
     r.verdict.getD "N/A", r.coverageState.getD "N/A",
     r.robotsTxtState.getD "N/A", r.indexingState.getD "N/A",
     r.lastCrawlTime.getD "N/A", r.pageFetchState.getD "N/A",
     r.googleCanonical.getD "N/A", r.userCanonical.getD "N/A"]
  | ApiResult.error e => [now, url, "ERROR", e, "", "", "", "", "", ""]

/-! ## Property selection -/

/-- One entry of the `sites().list()` response. -/
structure SiteEntry where
  siteUrl : String
  permissionLevel : String

/-- Outcome of the `sites().list()` call. -/
inductive SitesResult where
  | ok : List SiteEntry → SitesResult
  | err : String → SitesResult

/-- The selection test in `find_verified_property`'s loop:
`"wordsolverx.com" in site_url and permission != "siteRestrictedUser"`. -/
def eligibleSite (s : SiteEntry) : Bool :=
  decide ("wordsolverx.com".data <:+: s.siteUrl.data) &&
    s.permissionLevel != "siteRestrictedUser"

/-- `find_verified_property`: first matching entry's `siteUrl`, `none` when
no entry matches or the listing call raises. -/
def find_verified_property : SitesResult → Option String
  | SitesResult.err _ => none
  | SitesResult.ok sites => (sites.find? eligibleSite).map SiteEntry.siteUrl

/-! ## Batch Orchestrator (`main`)

`main`'s interactions with the outside world are inputs: the credentials
outcome, the site listing, the static file, today's date, the `DRY_RUN`
flag, the sheet-creation outcome, the per-call timestamps, the per-URL
inspection responses and the per-batch append outcomes.  The returned
`RunResult` records every remote call in order, what was printed in dry-run
mode, the rows successfully appended to the sheet, and the CSV file's rows
when one is written at run end. -/

/-- A remote API call made during the run. -/
inductive RemoteCall where
  | sitesList : RemoteCall
  | sheetsCreate : RemoteCall
  | headerAppend : RemoteCall
  | inspect : String → RemoteCall
  | valuesAppend : List (List String) → RemoteCall
deriving DecidableEq

/-- Calls that write to the remote spreadsheet. -/
def isSheetWrite : RemoteCall → Bool
  | RemoteCall.headerAppend => true
  | RemoteCall.valuesAppend _ => true
  | _ => false

/-- The run's external collaborators and inputs. -/
structure Env where
  creds : Except String Unit
  sites : SitesResult
  staticFile : Option (List String)
  today : Date
  dryRun : Bool
  createSheet : Except String String
  ts : Nat → String
  resp : Nat → ApiResult
  appendFail : Nat → Bool

/-- Observable outcome of a run. -/
structure RunResult where
  calls : List RemoteCall
  printed : Option (List String)
  sheetRows : List (List String)
  csvFile : Option (List (List String))
  fatal : Option String

/-- The URL set `all_urls` built in `main`. -/
def all_urls (env : Env) : List String := build env.staticFile env.today

/-- The batches produced by `for i in range(0, len(all_urls), 5)`. -/
def chunks5 (l : List String) : List (List String) :=
  if h : l = [] then [] else l.take 5 :: chunks5 (l.drop 5)
termination_by l.length
decreasing_by
  simp only [List.length_drop]
  have : l.length ≠ 0 := fun hl => h (List.eq_nil_of_length_eq_zero hl)
  omega

/-- The rows produced by inspecting `urls` starting at global call index
`i`: row `j` uses the `i+j`-th timestamp and inspection response. -/
def rowsFrom (env : Env) : Nat → List String → List (List String)
  | _, [] => []
  | i, url :: rest => inspect_url (env.ts i) url (env.resp i) :: rowsFrom env (i + 1) rest

/-- Per-batch view of `rowsFrom`. -/
def rowsFromBatches (env : Env) : Nat → List (List String) → List (List String)
  | _, [] => []
  | i, batch :: rest => rowsFrom env i batch ++ rowsFromBatches env (i + batch.length) rest

/-- Result of the batch loop: every row collected (`all_rows`), the rows
durably appended to the sheet, the final `csv_mode` flag, and the remote
calls made. -/
structure LoopOut where
  allRows : List (List String)
  sheetRows : List (List String)
  csvEnd : Bool
  calls : List RemoteCall

/-- The batch loop of `main`: for each batch, inspect every URL (appending
to `batch_rows` and `all_rows`), then, when not in CSV mode and a sheet
exists, attempt one `values().append`; on its failure set `csv_mode` for
the remainder of the run.  `hs` is `spreadsheet_id is not None`, `b` the
batch number, `i` the global URL index. -/
def runBatches (env : Env) (hs : Bool) : Nat → Nat → Bool → List (List String) → LoopOut
  | _, _, csv, [] => ⟨[], [], csv, []⟩
  | i, b, csv, batch :: rest =>
    let rows := rowsFrom env i batch
    let iCalls := batch.map RemoteCall.inspect
    if !csv && hs then
      if env.appendFail b then
        let out := runBatches env hs (i + batch.length) (b + 1) true rest
        ⟨rows ++ out.allRows, out.sheetRows, out.csvEnd,
         iCalls ++ [RemoteCall.valuesAppend rows] ++ out.calls⟩
      else
        let out := runBatches env hs (i + batch.length) (b + 1) csv rest
        ⟨rows ++ out.allRows, rows ++ out.sheetRows, out.csvEnd,
         iCalls ++ [RemoteCall.valuesAppend rows] ++ out.calls⟩
    else
      let out := runBatches env hs (i + batch.length) (b + 1) csv rest
      ⟨rows ++ out.allRows, out.sheetRows, out.csvEnd, iCalls ++ out.calls⟩

/-- `main`: credential acquisition, property verification, URL building,
the empty-set and dry-run early exits, sheet creation with CSV fallback,
the batch loop, and the final CSV export when in CSV mode. -/
def main (env : Env) : RunResult :=
  match env.creds with
  | Except.error e => ⟨[], none, [], none, some e⟩
  | Except.ok _ =>
    match find_verified_property env.sites with
    | none => ⟨[RemoteCall.sitesList], none, [], none, none⟩
    | some _ =>
      let urls := all_urls env
      if urls = [] then ⟨[RemoteCall.sitesList], none, [], none, none⟩
      else if env.dryRun then ⟨[RemoteCall.sitesList], some urls, [], none, none⟩
      else
        match env.createSheet with
        | Except.ok _ =>
          let out := runBatches env true 0 0 false (chunks5 urls)
          ⟨RemoteCall.sitesList :: RemoteCall.sheetsCreate :: RemoteCall.headerAppend ::
             out.calls, none, out.sheetRows,
           if out.csvEnd then some (headers :: out.allRows) else none, none⟩
        | Except.error _ =>
          let out := runBatches env false 0 0 true (chunks5 urls)
          ⟨RemoteCall.sitesList :: RemoteCall.sheetsCreate :: out.calls, none, [],
           some (headers :: out.allRows), none⟩

/-! ## Helper lemmas -/

/-- Unfolding of `generate_dynamic_urls`: the 35 URLs, grouped by day (today
first) then by game, each of the form
`SITE_URL ++ game ++ "-answer-for-" ++ <lower-cased month-day-year>`. -/
lemma gen_dyn_explicit (d : Date) : generate_dynamic_urls d =
    [SITE_URL ++ "wordle" ++ "-answer-for-" ++ dateStr (subDays d 0),
     SITE_URL ++ "quordle" ++ "-answer-for-" ++ dateStr (subDays d 0),
     SITE_URL ++ "colordle" ++ "-answer-for-" ++ dateStr (subDays d 0),
     SITE_URL ++ "semantle" ++ "-answer-for-" ++ dateStr (subDays d 0),
     SITE_URL ++ "phoodle" ++ "-answer-for-" ++ dateStr (subDays d 0),
     SITE_URL ++ "wordle" ++ "-answer-for-" ++ dateStr (subDays d 1),
     SITE_URL ++ "quordle" ++ "-answer-for-" ++ dateStr (subDays d 1),
     SITE_URL ++ "colordle" ++ "-answer-for-" ++ dateStr (subDays d 1),
     SITE_URL ++ "semantle" ++ "-answer-for-" ++ dateStr (subDays d 1),
     SITE_URL ++ "phoodle" ++ "-answer-for-" ++ dateStr (subDays d 1),
     SITE_URL ++ "wordle" ++ "-answer-for-" ++ dateStr (subDays d 2),
     SITE_URL ++ "quordle" ++ "-answer-for-" ++ dateStr (subDays d 2),
     SITE_URL ++ "colordle" ++ "-answer-for-" ++ dateStr (subDays d 2),
     SITE_URL ++ "semantle" ++ "-answer-for-" ++ dateStr (subDays d 2),
     SITE_URL ++ "phoodle" ++ "-answer-for-" ++ dateStr (subDays d 2),
     SITE_URL ++ "wordle" ++ "-answer-for-" ++ dateStr (subDays d 3),
     SITE_URL ++ "quordle" ++ "-answer-for-" ++ dateStr (subDays d 3),
     SITE_URL ++ "colordle" ++ "-answer-for-" ++ dateStr (subDays d 3),
     SITE_URL ++ "semantle" ++ "-answer-for-" ++ dateStr (subDays d 3),
     SITE_URL ++ "phoodle" ++ "-answer-for-" ++ dateStr (subDays d 3),
     SITE_URL ++ "wordle" ++ "-answer-for-" ++ dateStr (subDays d 4),
     SITE_URL ++ "quordle" ++ "-answer-for-" ++ dateStr (subDays d 4),
     SITE_URL ++ "colordle" ++ "-answer-for-" ++ dateStr (subDays d 4),
     SITE_URL ++ "semantle" ++ "-answer-for-" ++ dateStr (subDays d 4),
     SITE_URL ++ "phoodle" ++ "-answer-for-" ++ dateStr (subDays d 4),
     SITE_URL ++ "wordle" ++ "-answer-for-" ++ dateStr (subDays d 5),
     SITE_URL ++ "quordle" ++ "-answer-for-" ++ dateStr (subDays d 5),
     SITE_URL ++ "colordle" ++ "-answer-for-" ++ dateStr (subDays d 5),
     SITE_URL ++ "semantle" ++ "-answer-for-" ++ dateStr (subDays d 5),
     SITE_URL ++ "phoodle" ++ "-answer-for-" ++ dateStr (subDays d 5),
     SITE_URL ++ "wordle" ++ "-answer-for-" ++ dateStr (subDays d 6),
     SITE_URL ++ "quordle" ++ "-answer-for-" ++ dateStr (subDays d 6),
     SITE_URL ++ "colordle" ++ "-answer-for-" ++ dateStr (subDays d 6),
     SITE_URL ++ "semantle" ++ "-answer-for-" ++ dateStr (subDays d 6),
     SITE_URL ++ "phoodle" ++ "-answer-for-" ++ dateStr (subDays d 6)] := rfl

/-- The dynamic list is never empty, hence neither is the URL set. -/
lemma all_urls_ne (env : Env) : all_urls env ≠ [] := by
  intro hcontra
  have h := (List.append_eq_nil.mp hcontra).2
  rw [gen_dyn_explicit] at h
  simp at h

/-- `rowsFrom` distributes over append, shifting the call index. -/
lemma rowsFrom_append (env : Env) :
    ∀ (xs ys : List String) (i : Nat),
      rowsFrom env i (xs ++ ys) = rowsFrom env i xs ++ rowsFrom env (i + xs.length) ys := by
  intro xs
  induction xs with
  | nil => intro ys i; simp [rowsFrom]
  | cons x xs ih =>
    intro ys i
    simp only [List.cons_append, rowsFrom, List.length_cons, List.append_eq]
    rw [ih ys (i + 1)]
    have hn : i + 1 + xs.length = i + (xs.length + 1) := by omega
    rw [hn]

/-- Batching does not lose or reorder URLs. -/
lemma chunks5_flatten (l : List String) : (chunks5 l).flatten = l := by
  have H : ∀ (n : Nat) (l : List String), l.length ≤ n → (chunks5 l).flatten = l := by
    intro n
    induction n with
    | zero =>
      intro l hl
      have : l = [] := List.eq_nil_of_length_eq_zero (Nat.le_zero.mp hl)
      subst this
      rw [chunks5]
      simp
    | succ n ih =>
      intro l hl
      rw [chunks5]
      by_cases h : l = []
      · simp [h]
      · simp only [h, dite_false]
        rw [List.flatten_cons, ih (l.drop 5) (by simp [List.length_drop]; omega),
          List.take_append_drop]
  exact H l.length l (Nat.le_refl _)

/-- Inspecting batch-by-batch yields the same rows as inspecting the
flattened URL list. -/
lemma rowsFromBatches_flatten (env : Env) :
    ∀ (bs : List (List String)) (i : Nat),
      rowsFromBatches env i bs = rowsFrom env i bs.flatten := by
  intro bs
  induction bs with
  | nil => intro i; simp [rowsFromBatches, rowsFrom]
  | cons batch rest ih =>
    intro i
    simp only [rowsFromBatches, List.flatten_cons, rowsFrom_append, ih]

/-- Rows over the run's batches are the rows over the URL set. -/
lemma rowsFromBatches_chunks (env : Env) (l : List String) (i : Nat) :
    rowsFromBatches env i (chunks5 l) = rowsFrom env i l := by
  rw [rowsFromBatches_flatten, chunks5_flatten]

/-- The `all_rows` accumulator of the batch loop collects exactly the
inspection rows, in order, whatever the sink does. -/
lemma runBatches_allRows (env : Env) :
    ∀ (bs : List (List String)) (hs : Bool) (i b : Nat) (csv : Bool),
      (runBatches env hs i b csv bs).allRows = rowsFromBatches env i bs := by
  intro bs
  induction bs with
  | nil => intro hs i b csv; simp [runBatches, rowsFromBatches]
  | cons batch rest ih =>
    intro hs i b csv
    simp only [runBatches, rowsFromBatches]
    by_cases h1 : (!csv && hs) = true
    · by_cases h2 : env.appendFail b = true
      · simp [h1, h2, ih]
      · simp [h1, h2, ih]
    · simp [h1, ih]

/-- Once `csv_mode` holds, it holds forever, nothing more reaches the sheet,
and no spreadsheet write is ever attempted again. -/
lemma runBatches_local (env : Env) :
    ∀ (bs : List (List String)) (hs : Bool) (i b : Nat),
      (runBatches env hs i b true bs).csvEnd = true ∧
      (runBatches env hs i b true bs).sheetRows = [] ∧
      ((runBatches env hs i b true bs).calls.all fun c => !isSheetWrite c) = true := by
  intro bs
  induction bs with
  | nil => intro hs i b; simp [runBatches]
  | cons batch rest ih =>
    intro hs i b
    simp only [runBatches, Bool.not_true, Bool.false_and, Bool.false_eq_true, if_false]
    refine ⟨(ih hs _ _).1, (ih hs _ _).2.1, ?_⟩
    rw [List.all_append]
    have h1 : ((List.map RemoteCall.inspect batch).all fun c => !isSheetWrite c) = true := by
      rw [List.all_eq_true]
      intro c hc
      rcases List.mem_map.mp hc with ⟨u, _, rfl⟩
      rfl
    rw [h1, (ih hs _ _).2.2]
    rfl

/-- Without a spreadsheet handle no write is attempted and the sheet stays
empty; `csv_mode` is left unchanged. -/
lemma runBatches_noSheet (env : Env) :
    ∀ (bs : List (List String)) (i b : Nat) (csv : Bool),
      (runBatches env false i b csv bs).csvEnd = csv ∧
      (runBatches env false i b csv bs).sheetRows = [] ∧
      ((runBatches env false i b csv bs).calls.all fun c => !isSheetWrite c) = true := by
  intro bs
  induction bs with
  | nil => intro i b csv; simp [runBatches]
  | cons batch rest ih =>
    intro i b csv
    simp only [runBatches, Bool.and_false, Bool.false_eq_true, if_false]
    refine ⟨(ih _ _ _).1, (ih _ _ _).2.1, ?_⟩
    rw [List.all_append]
    have h1 : ((List.map RemoteCall.inspect batch).all fun c => !isSheetWrite c) = true := by
      rw [List.all_eq_true]
      intro c hc
      rcases List.mem_map.mp hc with ⟨u, _, rfl⟩
      rfl
    rw [h1, (ih _ _ _).2.2]
    rfl

/-- Whatever happens, the sheet's rows are an initial segment of the
inspection rows. -/
lemma runBatches_sheet_init (env : Env) :
    ∀ (bs : List (List String)) (hs : Bool) (i b : Nat) (csv : Bool),
      (runBatches env hs i b csv bs).sheetRows <+: rowsFromBatches env i bs := by
  intro bs
  induction bs with
  | nil => intro hs i b csv; simp [runBatches, rowsFromBatches]
  | cons batch rest ih =>
    intro hs i b csv
    by_cases h1 : (!csv && hs) = true
    · by_cases h2 : env.appendFail b = true
      · have hz := (runBatches_local env rest hs (i + batch.length) (b + 1)).2.1
        simp only [runBatches, rowsFromBatches, h1, h2, if_true, hz]
        exact ⟨_, rfl⟩
      · rcases ih hs (i + batch.length) (b + 1) csv with ⟨t, ht⟩
        simp only [runBatches, rowsFromBatches, h1, h2, Bool.false_eq_true, if_true, if_false]
        exact ⟨t, by rw [List.append_assoc, ht]⟩
    · have hz : (runBatches env hs (i + batch.length) (b + 1) csv rest).sheetRows = [] := by
        cases hhs : hs
        · exact (runBatches_noSheet env rest (i + batch.length) (b + 1) csv).2.1
        · have hcsv : csv = true := by
            cases hcv : csv
            · rw [hhs, hcv] at h1; simp at h1
            · rfl
          rw [hcsv]
          exact (runBatches_local env rest true (i + batch.length) (b + 1)).2.1
      simp only [runBatches, rowsFromBatches, h1, if_false, hz]
      exact ⟨_, rfl⟩

/-- If the run never left Remote mode, every collected row reached the
sheet, in order. -/
lemma runBatches_success_rows (env : Env) :
    ∀ (bs : List (List String)) (i b : Nat),
      (runBatches env true i b false bs).csvEnd = false →
      (runBatches env true i b false bs).sheetRows = rowsFromBatches env i bs := by
  intro bs
  induction bs with
  | nil => intro i b _; simp [runBatches, rowsFromBatches]
  | cons batch rest ih =>
    intro i b hend
    by_cases h2 : env.appendFail b = true
    · exfalso
      have hz := (runBatches_local env rest true (i + batch.length) (b + 1)).1
      simp only [runBatches, h2, if_true, Bool.not_false, Bool.and_self] at hend
      rw [hz] at hend
      simp at hend
    · simp only [runBatches, h2, Bool.not_false, Bool.and_self, if_true,
        Bool.false_eq_true, if_false] at hend ⊢
      rw [rowsFromBatches, ih (i + batch.length) (b + 1) hend]

/-- First append failure at batch `b + k`: the run ends in CSV mode and the
sheet holds exactly the rows of the `k` earlier, successful batches. -/
lemma runBatches_firstFail (env : Env) :
    ∀ (k : Nat) (bs : List (List String)) (i b : Nat),
      (∀ j, b ≤ j → j < b + k → env.appendFail j = false) →
      env.appendFail (b + k) = true → k < bs.length →
      (runBatches env true i b false bs).csvEnd = true ∧
      (runBatches env true i b false bs).sheetRows = rowsFromBatches env i (bs.take k) := by
  intro k
  induction k with
  | zero =>
    intro bs i b _ hfail hk
    rcases bs with _ | ⟨batch, rest⟩
    · simp at hk
    have hb : env.appendFail b = true := by simpa using hfail
    have hz := runBatches_local env rest true (i + batch.length) (b + 1)
    simp only [runBatches, hb, if_true, Bool.not_false, Bool.and_self, List.take_zero,
      rowsFromBatches]
    exact ⟨hz.1, hz.2.1⟩
  | succ k ih =>
    intro bs i b hbef hfail hk
    rcases bs with _ | ⟨batch, rest⟩
    · simp at hk
    have hb : env.appendFail b = false := hbef b (Nat.le_refl b) (by omega)
    have hrec := ih rest (i + batch.length) (b + 1)
      (fun j h1 h2 => hbef j (by omega) (by omega))
      (by have he : b + 1 + k = b + (k + 1) := by omega
          rw [he]; exact hfail)
      (by simpa using hk)
    simp only [runBatches, hb, Bool.false_eq_true, if_false, Bool.not_false, Bool.and_self,
      if_true, List.take_succ_cons, rowsFromBatches]
    exact ⟨hrec.1, by rw [hrec.2]⟩

/-- The rows of an initial run of batches form an initial segment of all
the rows. -/
lemma rowsFromBatches_take_init (env : Env) :
    ∀ (bs : List (List String)) (k i : Nat),
      rowsFromBatches env i (bs.take k) <+: rowsFromBatches env i bs := by
  intro bs
  induction bs with
  | nil => intro k i; simp [rowsFromBatches]
  | cons batch rest ih =>
    intro k i
    cases k with
    | zero => exact ⟨_, rfl⟩
    | succ k =>
      rcases ih k (i + batch.length) with ⟨t, ht⟩
      simp only [List.take_succ_cons, rowsFromBatches]
      exact ⟨t, by rw [List.append_assoc, ht]⟩

/-- `List.find?` returns the first satisfying element: everything before it
fails the predicate. -/
lemma find_eq_some_split {α : Type} (p : α → Bool) :
    ∀ (l : List α) (a : α), l.find? p = some a →
      ∃ pre post, l = pre ++ a :: post ∧ p a = true ∧ ∀ t ∈ pre, p t = false := by
  intro l
  induction l with
  | nil => intro a h; simp [List.find?] at h
  | cons x xs ih =>
    intro a h
    by_cases hx : p x = true
    · rw [List.find?_cons_of_pos _ hx] at h
      rcases Option.some_inj.mp h with rfl
      exact ⟨[], xs, rfl, hx, by simp⟩
    · rw [List.find?_cons_of_neg _ hx] at h
      rcases ih a h with ⟨pre, post, hl, hpa, hpre⟩
      refine ⟨x :: pre, post, by rw [hl]; rfl, hpa, ?_⟩
      intro t ht
      rcases List.mem_cons.mp ht with rfl | ht
      · exact Bool.not_eq_true _ ▸ (by simpa using hx)
      · exact hpre t ht

/-- A string strips to empty exactly when it is all whitespace. -/
lemma pyStrip_eq_empty_iff (s : String) :
    pyStrip s = "" ↔ ∀ c ∈ s.data, isPySpace c = true := by
  constructor
  · intro h c hc
    have hdata : (((s.data.dropWhile isPySpace).reverse.dropWhile isPySpace).reverse) = [] := by
      have := congrArg String.data h
      simpa [pyStrip] using this
    rw [List.reverse_eq_nil_iff, List.dropWhile_eq_nil_iff] at hdata
    have hall : ∀ x ∈ s.data.dropWhile isPySpace, isPySpace x = true := by
      intro x hx
      exact hdata x (List.mem_reverse.mpr hx)
    rcases (List.mem_append.mp
      ((List.takeWhile_append_dropWhile isPySpace s.data) ▸ hc)) with h1 | h1
    · exact List.mem_takeWhile_imp h1
    · exact hall _ h1
  · intro h
    have h1 : s.data.dropWhile isPySpace = [] :=
      List.dropWhile_eq_nil_iff.mpr h
    simp [pyStrip, h1]

/-- Reduction of `main` on the happy startup path with a created sheet. -/
lemma main_run_ok (env : Env) (su sid : String) (hc : env.creds = Except.ok ())
    (hf : find_verified_property env.sites = some su) (hd : env.dryRun = false)
    (hcr : env.createSheet = Except.ok sid) :
    main env =
      ⟨RemoteCall.sitesList :: RemoteCall.sheetsCreate :: RemoteCall.headerAppend ::
         (runBatches env true 0 0 false (chunks5 (all_urls env))).calls, none,
       (runBatches env true 0 0 false (chunks5 (all_urls env))).sheetRows,
       if (runBatches env true 0 0 false (chunks5 (all_urls env))).csvEnd then
         some (headers :: (runBatches env true 0 0 false (chunks5 (all_urls env))).allRows)
       else none, none⟩ := by
  rw [main, hc, hf, hcr]
  simp only [if_neg (all_urls_ne env), hd, Bool.false_eq_true, if_false]

/-- Reduction of `main` when sheet creation fails: the run starts directly
in CSV mode. -/
lemma main_run_err (env : Env) (su msg : String) (hc : env.creds = Except.ok ())
    (hf : find_verified_property env.sites = some su) (hd : env.dryRun = false)
    (hcr : env.createSheet = Except.error msg) :
    main env =
      ⟨RemoteCall.sitesList :: RemoteCall.sheetsCreate ::
         (runBatches env false 0 0 true (chunks5 (all_urls env))).calls, none, [],
       some (headers :: (runBatches env false 0 0 true (chunks5 (all_urls env))).allRows),
       none⟩ := by
  rw [main, hc, hf, hcr]
  simp only [if_neg (all_urls_ne env), hd, Bool.false_eq_true, if_false]

/-- Number of batches: one per started group of 5 URLs. -/
lemma chunks5_length : ∀ l : List String, (chunks5 l).length = (l.length + 4) / 5 := by
  have H : ∀ (n : Nat) (l : List String), l.length ≤ n →
      (chunks5 l).length = (l.length + 4) / 5 := by
    intro n
    induction n with
    | zero =>
      intro l hl
      have he : l = [] := List.eq_nil_of_length_eq_zero (Nat.le_zero.mp hl)
      subst he
      rw [chunks5]
      simp
    | succ n ih =>
      intro l hl
      rw [chunks5]
      by_cases h : l = []
      · subst h; simp
      · have hlen : l.length ≠ 0 := fun hz => h (List.eq_nil_of_length_eq_zero hz)
        simp only [h, dite_false, List.length_cons]
        rw [ih (l.drop 5) (by simp only [List.length_drop]; omega)]
        simp only [List.length_drop]
        omega
  intro l
  exact H l.length l (Nat.le_refl _)

/-! ## Concrete runs used as witnesses -/

/-- A verified property entry matching the target domain. -/
def okSite : SiteEntry := ⟨"https://wordsolverx.com/", "siteOwner"⟩

/-- A dry run with valid credentials and a matching property. -/
def envDry : Env :=
  ⟨Except.ok (), SitesResult.ok [okSite], none, ⟨2026, 1, 28⟩, true,
   Except.ok "sheet1", fun _ => "2026-01-28 00:00:00", fun _ => ApiResult.ok none,
   fun _ => false⟩

/-- A real run whose second batch append (batch index 1) fails. -/
def envFail : Env :=
  ⟨Except.ok (), SitesResult.ok [okSite], none, ⟨2026, 1, 28⟩, false,
   Except.ok "sheet1", fun _ => "2026-01-28 00:00:00", fun _ => ApiResult.ok none,
   fun b => b == 1⟩

/-- A real run where every append succeeds. -/
def envOk : Env :=
  ⟨Except.ok (), SitesResult.ok [okSite], none, ⟨2026, 1, 28⟩, false,
   Except.ok "sheet1", fun _ => "2026-01-28 00:00:00", fun _ => ApiResult.ok none,
   fun _ => false⟩

/-- A static source whose only line is also generated dynamically on
2026-01-28. -/
def dupStatic : List String :=
  ["https://wordsolverx.com/wordle-answer-for-january-28-2026"]

/-! ## Claims -/

/-- C1: `inspect_url` always returns a fully populated 10-field row: on
success each of the 8 status fields defaults to `"N/A"` when absent from
`indexStatusResult`, and on failure the row is timestamp, url, `"ERROR"`,
the error message, and six empty strings.  Totality of the Lean function
embeds the no-exception contract. -/
theorem inspect_url_row_complete (now url : String) (resp : ApiResult) :
    (inspect_url now url resp).length = 10 ∧
    (∀ e, resp = ApiResult.error e →
      inspect_url now url resp = [now, url, "ERROR", e, "", "", "", "", "", ""]) ∧
    (∀ ir, resp = ApiResult.ok ir →
      inspect_url now url resp =
        now :: url ::
          (fieldsOf ((ir.getD ⟨none⟩).indexStatusResult.getD emptyIndexStatus)).map
            (fun o => o.getD "N/A")) ∧
    inspect_url now url (ApiResult.ok none) = now :: url :: List.replicate 8 "N/A" := by
  refine ⟨?_, ?_, ?_, rfl⟩
  · cases resp <;> rfl
  · intro e he; subst he; rfl
  · intro ir hir; subst hir; rfl

/-- Witness for C1 at a concrete failed inspection. -/
theorem inspect_url_row_complete_witness :
    inspect_url "2026-01-28 00:00:00" "https://wordsolverx.com/x"
        (ApiResult.error "HttpError 429") =
      ["2026-01-28 00:00:00", "https://wordsolverx.com/x", "ERROR", "HttpError 429",
       "", "", "", "", "", ""] :=
  (inspect_url_row_complete "2026-01-28 00:00:00" "https://wordsolverx.com/x"
    (ApiResult.error "HttpError 429")).2.1 "HttpError 429" rfl

/-- C3: the URL set is the static URLs followed by exactly 5 × 7 = 35
dynamic URLs, grouped by day (today first) then game, each of the form
`<base><game>-answer-for-<month-name>-<2-digit-day>-<4-digit-year>` in
lower case; on 2026-01-28 with a 1-element static source the set has 36
URLs, the static one first, `wordle...january-28-2026` second and
`phoodle...january-22-2026` last. -/
theorem url_set_shape (d : Date) (staticFile : Option (List String)) :
    build staticFile d = read_static_urls staticFile ++ generate_dynamic_urls d ∧
    (generate_dynamic_urls d).length = 35 ∧
    (∀ i j, i < 7 → j < 5 →
      (generate_dynamic_urls d)[5 * i + j]? =
        some (SITE_URL ++ games.getD j "" ++ "-answer-for-" ++ dateStr (subDays d i))) ∧
    build (some ["https://wordsolverx.com/about"]) ⟨2026, 1, 28⟩ =
      "https://wordsolverx.com/about" :: generate_dynamic_urls ⟨2026, 1, 28⟩ ∧
    (build (some ["https://wordsolverx.com/about"]) ⟨2026, 1, 28⟩).length = 36 ∧
    (build (some ["https://wordsolverx.com/about"]) ⟨2026, 1, 28⟩)[1]? =
      some "https://wordsolverx.com/wordle-answer-for-january-28-2026" ∧
    (build (some ["https://wordsolverx.com/about"]) ⟨2026, 1, 28⟩)[35]? =
      some "https://wordsolverx.com/phoodle-answer-for-january-22-2026" := by
  refine ⟨rfl, ?_, ?_, by rfl, by rfl, by rfl, by rfl⟩
  · rw [gen_dyn_explicit]; rfl
  · intro i j hi hj
    interval_cases i <;> interval_cases j <;> (rw [gen_dyn_explicit]; rfl)

/-- Witness for C3 at the last day/game pair. -/
theorem url_set_shape_witness :
    (generate_dynamic_urls ⟨2026, 1, 28⟩)[5 * 6 + 4]? =
      some (SITE_URL ++ games.getD 4 "" ++ "-answer-for-" ++
        dateStr (subDays ⟨2026, 1, 28⟩ 6)) :=
  (url_set_shape ⟨2026, 1, 28⟩ none).2.2.1 6 4 (by decide) (by decide)

/-- C5 counterexample: the URL Set Builder does not deduplicate — a static
line that is also generated dynamically appears twice in the output. -/
theorem build_not_nodup : ¬ (build (some dupStatic) ⟨2026, 1, 28⟩).Nodup := by
  intro h
  have he : build (some dupStatic) ⟨2026, 1, 28⟩ =
      "https://wordsolverx.com/wordle-answer-for-january-28-2026" ::
        "https://wordsolverx.com/wordle-answer-for-january-28-2026" ::
          (build (some dupStatic) ⟨2026, 1, 28⟩).drop 2 := by rfl
  rw [he] at h
  exact (List.nodup_cons.mp h).1 (List.mem_cons_self _ _)

/-- C5 amended: the builder performs no deduplication — its output is the
plain concatenation of the static and dynamic lists, so every URL occurs
exactly as many times as in the two sources combined. -/
theorem build_count_append (s : Option (List String)) (t : Date) (u : String) :
    (build s t).count u =
      (read_static_urls s).count u + (generate_dynamic_urls t).count u := by
  rw [build, List.count_append]

/-- C10: each static URL is its source line stripped of leading/trailing
whitespace, lines that strip to nothing (whitespace-only, not merely
empty) are skipped, and an absent source file contributes the empty list
without failing. -/
theorem static_urls_reading :
    read_static_urls none = [] ∧
    (∀ lines, read_static_urls (some lines) =
      (lines.filter fun l => pyStrip l ≠ "").map pyStrip) ∧
    (∀ s : String, pyStrip s = "" ↔ ∀ c ∈ s.data, isPySpace c = true) := by
  refine ⟨rfl, ?_, pyStrip_eq_empty_iff⟩
  intro lines
  rw [read_static_urls]
  exact List.filter_map pyStrip lines

/-- Witness for C10: the absent-file case. -/
theorem static_urls_reading_witness : read_static_urls none = [] :=
  static_urls_reading.1

/-- C8: startup selects the first listed property whose `siteUrl` contains
the target domain with a permission other than `"siteRestrictedUser"`; if
no entry matches (or the listing call fails) the run stops after the
listing call with no inspection and no sink interaction. -/
theorem startup_property_selection :
    (∀ sites u, find_verified_property (SitesResult.ok sites) = some u →
      ∃ pre s post, sites = pre ++ s :: post ∧ s.siteUrl = u ∧ eligibleSite s = true ∧
        ∀ t ∈ pre, eligibleSite t = false) ∧
    (∀ sites, (∀ s ∈ sites, eligibleSite s = false) →
      find_verified_property (SitesResult.ok sites) = none) ∧
    (∀ e, find_verified_property (SitesResult.err e) = none) ∧
    (∀ env : Env, env.creds = Except.ok () → find_verified_property env.sites = none →
      main env = ⟨[RemoteCall.sitesList], none, [], none, none⟩) := by
  refine ⟨?_, ?_, fun e => rfl, ?_⟩
  · intro sites u h
    rw [find_verified_property] at h
    rcases Option.map_eq_some'.mp h with ⟨s, hfind, hs⟩
    rcases find_eq_some_split eligibleSite sites s hfind with ⟨pre, post, hl, hps, hpre⟩
    exact ⟨pre, s, post, hl, hs, hps, hpre⟩
  · intro sites h
    have hfn : sites.find? eligibleSite = none :=
      List.find?_eq_none.mpr fun x hx => by rw [h x hx]; simp
    rw [find_verified_property, hfn]
    rfl
  · intro env hc hf
    rw [main, hc, hf]

/-- Witness for C8: a listing with no matching property selects nothing. -/
theorem startup_property_selection_witness :
    find_verified_property (SitesResult.ok [⟨"https://example.com/", "siteOwner"⟩]) =
      none :=
  startup_property_selection.2.1 [⟨"https://example.com/", "siteOwner"⟩] (by decide)

/-- C6 counterexample: a dry run is not free of remote calls — the
property-listing call is made before the dry-run check. -/
theorem dry_run_remote_call_cex :
    envDry.dryRun = true ∧ (main envDry).calls ≠ ([] : List RemoteCall) := by
  refine ⟨rfl, ?_⟩
  have h : (main envDry).calls = [RemoteCall.sitesList] := rfl
  rw [h]
  simp

/-- C6 amended: after a successful property-listing call, a dry run prints
exactly the URL Set Builder's output — identical to any run with the same
static source and date — makes no inspection or spreadsheet call, and
creates or mutates no sink. -/
theorem dry_run_behavior (env : Env) (su : String) (hc : env.creds = Except.ok ())
    (hf : find_verified_property env.sites = some su) (hd : env.dryRun = true) :
    main env = ⟨[RemoteCall.sitesList], some (all_urls env), [], none, none⟩ ∧
    (∀ env2 : Env, env2.staticFile = env.staticFile → env2.today = env.today →
      all_urls env2 = all_urls env) := by
  constructor
  · rw [main, hc, hf]
    simp only [if_neg (all_urls_ne env), hd, if_true]
  · intro env2 h1 h2
    rw [all_urls, all_urls, h1, h2]

/-- Witness for C6's amended claim at the concrete dry run. -/
theorem dry_run_behavior_witness :
    main envDry = ⟨[RemoteCall.sitesList], some (all_urls envDry), [], none, none⟩ :=
  (dry_run_behavior envDry "https://wordsolverx.com/" rfl rfl rfl).1

/-- C2: when the sheet append first fails at 0-based batch index `k`
(0-based batches `0..k-1` succeeded; in the claim's 1-based numbering the
failure is on batch `k+1` after `1..k` succeeded), the final CSV file
holds the header and then every row collected in the run, in order, each
exactly once at its position; in particular the rows of all batches up to
and including the failed one — the first `k+1` batches — are an initial
segment of it, and all later batches keep accumulating into the same
file. -/
theorem failover_completeness (env : Env) (su sid : String) (k : Nat)
    (hc : env.creds = Except.ok ()) (hf : find_verified_property env.sites = some su)
    (hd : env.dryRun = false) (hcr : env.createSheet = Except.ok sid)
    (hbefore : ∀ j, j < k → env.appendFail j = false)
    (hfail : env.appendFail k = true)
    (hk : k < (chunks5 (all_urls env)).length) :
    (main env).csvFile = some (headers :: rowsFrom env 0 (all_urls env)) ∧
    rowsFromBatches env 0 ((chunks5 (all_urls env)).take (k + 1)) <+:
      rowsFrom env 0 (all_urls env) := by
  have hff := runBatches_firstFail env k (chunks5 (all_urls env)) 0 0
    (fun j _ h2 => hbefore j (by omega)) (by simpa using hfail) hk
  constructor
  · rw [main_run_ok env su sid hc hf hd hcr]
    simp only [hff.1, if_true]
    rw [runBatches_allRows, rowsFromBatches_chunks]
  · have hpre := rowsFromBatches_take_init env (chunks5 (all_urls env)) (k + 1) 0
    rwa [rowsFromBatches_chunks] at hpre

/-- Witness for C2: in `envFail` the append of batch 1 fails and the CSV
holds the header plus all rows. -/
theorem failover_completeness_witness :
    (main envFail).csvFile = some (headers :: rowsFrom envFail 0 (all_urls envFail)) :=
  (failover_completeness envFail "https://wordsolverx.com/" "sheet1" 1 rfl rfl rfl rfl
    (by decide) rfl
    (by rw [chunks5_length]
        have h35 : (all_urls envFail).length = 35 := by
          rw [all_urls, build, gen_dyn_explicit]; rfl
        rw [h35]
        decide)).1

/-- C4: batching and failover neither reorder nor drop rows — the sheet
always holds an initial segment of the inspection rows in builder order,
the sheet holds all of them when no CSV file is written, and a written CSV
file is exactly the header followed by all inspection rows in builder
order. -/
theorem order_preservation (env : Env) (su : String) (hc : env.creds = Except.ok ())
    (hf : find_verified_property env.sites = some su) (hd : env.dryRun = false) :
    (main env).sheetRows <+: rowsFrom env 0 (all_urls env) ∧
    ((main env).csvFile = none → (main env).sheetRows = rowsFrom env 0 (all_urls env)) ∧
    (∀ body, (main env).csvFile = some body →
      body = headers :: rowsFrom env 0 (all_urls env)) := by
  cases hcs : env.createSheet with
  | error msg =>
    rw [main_run_err env su msg hc hf hd hcs]
    refine ⟨⟨_, rfl⟩, ?_, ?_⟩
    · intro hnone
      exact absurd hnone (by simp)
    · intro body hbody
      have hb : headers ::
          (runBatches env false 0 0 true (chunks5 (all_urls env))).allRows = body :=
        Option.some_inj.mp hbody
      rw [← hb, runBatches_allRows, rowsFromBatches_chunks]
  | ok sid =>
    rw [main_run_ok env su sid hc hf hd hcs]
    refine ⟨?_, ?_, ?_⟩
    · have hp := runBatches_sheet_init env (chunks5 (all_urls env)) true 0 0 false
      rwa [rowsFromBatches_chunks] at hp
    · intro hnone
      by_cases hend : (runBatches env true 0 0 false (chunks5 (all_urls env))).csvEnd = true
      · rw [hend] at hnone
        exact absurd hnone (by simp)
      · have hend' := Bool.eq_false_iff.mpr hend
        have hs := runBatches_success_rows env (chunks5 (all_urls env)) 0 0 hend'
        rwa [rowsFromBatches_chunks] at hs
    · intro body hbody
      by_cases hend : (runBatches env true 0 0 false (chunks5 (all_urls env))).csvEnd = true
      · rw [hend] at hbody
        have hb := Option.some_inj.mp hbody
        rw [← hb, runBatches_allRows, rowsFromBatches_chunks]
      · have hend' := Bool.eq_false_iff.mpr hend
        rw [hend'] at hbody
        exact absurd hbody (by simp)

/-- Witness for C4 at the all-appends-succeed run. -/
theorem order_preservation_witness :
    (main envOk).sheetRows <+: rowsFrom envOk 0 (all_urls envOk) :=
  (order_preservation envOk "https://wordsolverx.com/" rfl rfl rfl).1

/-- C7: the Remote → Local transition is one-way: from any state in CSV
mode the run stays in CSV mode and never attempts another spreadsheet
write, and a run whose sheet creation failed performs, after the failed
creation call, no spreadsheet write at all. -/
theorem sink_failover_one_way :
    (∀ (env : Env) (hs : Bool) (i b : Nat) (bs : List (List String)),
      (runBatches env hs i b true bs).csvEnd = true ∧
      ((runBatches env hs i b true bs).calls.all fun c => !isSheetWrite c) = true) ∧
    (∀ (env : Env) (su msg : String), env.creds = Except.ok () →
      find_verified_property env.sites = some su → env.dryRun = false →
      env.createSheet = Except.error msg →
      (main env).calls = RemoteCall.sitesList :: RemoteCall.sheetsCreate ::
        (runBatches env false 0 0 true (chunks5 (all_urls env))).calls ∧
      ((runBatches env false 0 0 true (chunks5 (all_urls env))).calls.all
        fun c => !isSheetWrite c) = true) := by
  constructor
  · intro env hs i b bs
    exact ⟨(runBatches_local env bs hs i b).1, (runBatches_local env bs hs i b).2.2⟩
  · intro env su msg hc hf hd hcr
    refine ⟨?_, (runBatches_noSheet env (chunks5 (all_urls env)) 0 0 true).2.2⟩
    rw [main_run_err env su msg hc hf hd hcr]

/-- Witness for C7: CSV mode persists over the rest of `envFail`'s run. -/
theorem sink_failover_one_way_witness :
    (runBatches envFail true 0 0 true (chunks5 (all_urls envFail))).csvEnd = true :=
  (sink_failover_one_way.1 envFail true 0 0 (chunks5 (all_urls envFail))).1

/-- C9: if batches `0..k-1` were appended to the sheet before the append of
batch `k` failed, those rows stay in the sheet (exactly the first `k`
batches' rows) and also appear in the CSV file, which holds every row of
the run. -/
theorem failover_rows_in_both (env : Env) (su sid : String) (k : Nat)
    (hc : env.creds = Except.ok ()) (hf : find_verified_property env.sites = some su)
    (hd : env.dryRun = false) (hcr : env.createSheet = Except.ok sid)
    (hbefore : ∀ j, j < k → env.appendFail j = false)
    (hfail : env.appendFail k = true)
    (hk : k < (chunks5 (all_urls env)).length) :
    (main env).sheetRows = rowsFromBatches env 0 ((chunks5 (all_urls env)).take k) ∧
    (main env).csvFile = some (headers :: rowsFrom env 0 (all_urls env)) ∧
    (∀ r ∈ (main env).sheetRows, r ∈ rowsFrom env 0 (all_urls env)) := by
  have hff := runBatches_firstFail env k (chunks5 (all_urls env)) 0 0
    (fun j _ h2 => hbefore j (by omega)) (by simpa using hfail) hk
  have hmain := main_run_ok env su sid hc hf hd hcr
  refine ⟨?_, ?_, ?_⟩
  · rw [hmain]
    exact hff.2
  · rw [hmain]
    simp only [hff.1, if_true]
    rw [runBatches_allRows, rowsFromBatches_chunks]
  · intro r hr
    rw [hmain] at hr
    have hr2 : r ∈ rowsFromBatches env 0 ((chunks5 (all_urls env)).take k) := by
      rw [← hff.2]
      exact hr
    rcases rowsFromBatches_take_init env (chunks5 (all_urls env)) k 0 with ⟨t, ht⟩
    rw [← rowsFromBatches_chunks env (all_urls env) 0, ← ht]
    exact List.mem_append_left _ hr2

/-- Witness for C9: in `envFail` the sheet ends with exactly batch 0's
rows. -/
theorem failover_rows_in_both_witness :
    (main envFail).sheetRows =
      rowsFromBatches envFail 0 ((chunks5 (all_urls envFail)).take 1) :=
  (failover_rows_in_both envFail "https://wordsolverx.com/" "sheet1" 1 rfl rfl rfl rfl
    (by decide) rfl
    (by rw [chunks5_length]
        have h35 : (all_urls envFail).length = 35 := by
          rw [all_urls, build, gen_dyn_explicit]; rfl
        rw [h35]
        decide)).1

end UrlInspection

